import Mathlib

/-!
Shallow embedding of the distributed coordinator and WASM plugin subsystem of
the llm-test-bench core (src/core/src/distributed/coordinator.rs,
src/core/src/plugins/manager.rs, src/core/src/plugins/runtime.rs), together
with theorems settling the frozen claims about them.

Machine integers of the source are embedded as Nat (the relevant counters only
grow or saturate at zero, and `saturating_sub` is Nat subtraction).  The
`uuid::Uuid::new_v4` generators are embedded as fresh counters threaded through
the state.  Components of the repository that the coordinator calls but whose
source files are not present (ClusterState, JobQueue, Job) are modelled from
the specification; their doc comments say so explicitly.
-/

/-! ## Plugin subsystem: resource limits and the wasmtime store limiter -/

/-- Resource limits, from src/core/src/plugins (types module; fields as used by
runtime.rs and manager.rs). -/
structure ResourceLimits where
  max_memory_bytes : Nat
  max_execution_time_ms : Nat
  max_instructions : Option Nat
deriving DecidableEq

/-- WASM runtime configuration, from runtime.rs (RuntimeConfig).  Only the
fields the claims touch are carried; the wasm feature toggles do not affect
the limiter. -/
structure RuntimeConfig where
  limits : ResourceLimits
  enable_wasi : Bool
deriving DecidableEq

/-- Store limits, from runtime.rs (struct StoreLimits).  `memory_size` is the
byte cap installed by create_store. -/
structure StoreLimits where
  memory_size : Nat
deriving DecidableEq

/-- Default for StoreLimits, from runtime.rs (#[derive(Default)]). -/
def StoreLimits.default : StoreLimits := { memory_size := 0 }

/-- The ResourceLimiter::memory_growing impl for StoreLimits, from
runtime.rs lines 196-201: refuse (Ok(false)) when desired exceeds the cap,
grant (Ok(true)) otherwise; it never returns Err. -/
def StoreLimits.memory_growing (s : StoreLimits) (current desired : Nat)
    (maximum : Option Nat) : Except String Bool :=
  if desired > s.memory_size then Except.ok false else Except.ok true

/-- The ResourceLimiter::table_growing impl for StoreLimits, from
runtime.rs lines 203-206. -/
def StoreLimits.table_growing (s : StoreLimits) (current desired : Nat)
    (maximum : Option Nat) : Except String Bool :=
  Except.ok (desired < 10000)

/-- The limiter state installed by WasmRuntime::create_store, from
runtime.rs lines 145-163: start from StoreLimits::default and set
memory_size to the configured max_memory_bytes. -/
def WasmRuntime.create_store (config : RuntimeConfig) : StoreLimits :=
  { StoreLimits.default with memory_size := config.limits.max_memory_bytes }

/-! ## Plugin subsystem: manager state -/

/-- Plugin lifecycle status, from the plugins types module (variants as used
in manager.rs and listed by the spec). -/
inductive PluginStatus where
  | Loading
  | Ready
  | Executing
  | Error
  | Unloading
deriving DecidableEq

/-- Plugin self-description, from the plugins types module (fields used by
manager.rs: the name enters the generated plugin id). -/
structure PluginMetadata where
  name : String
  version : String
deriving DecidableEq

/-- Per-plugin bookkeeping record, from the plugins types module
(PluginInfo fields as written by manager.rs). -/
structure PluginInfo where
  id : String
  metadata : PluginMetadata
  status : PluginStatus
  execution_count : Nat
  total_execution_time_ms : Nat
  error_count : Nat
deriving DecidableEq

/-- Plugin manager configuration, from manager.rs (ManagerConfig; the cache
directory plays no role in the embedded operations). -/
structure ManagerConfig where
  runtime_config : RuntimeConfig
  max_concurrent_plugins : Nat
deriving DecidableEq

/-- Plugin manager state, from manager.rs (PluginManager).  The wasm instance
handles carry no observable state for the claims, so a loaded plugin is its
PluginInfo keyed by plugin id; next_uuid embeds the uuid counter of
manager.rs's local uuid module (an incrementing AtomicU64). -/
structure PluginManager where
  config : ManagerConfig
  plugins : List (String × PluginInfo)
  next_uuid : Nat
deriving DecidableEq

/-- Association-list lookup keyed on the first component (HashMap::get). -/
def alistFind {κ α : Type} [DecidableEq κ] (k : κ) (l : List (κ × α)) : Option α :=
  (l.find? (fun p => p.1 = k)).map (fun p => p.2)

/-- Association-list insert: replaces any existing binding of the key
(HashMap::insert semantics). -/
def alistInsert {κ α : Type} [DecidableEq κ] (k : κ) (v : α) (l : List (κ × α)) :
    List (κ × α) :=
  (k, v) :: l.filter (fun p => ¬(p.1 = k))

/-- Association-list in-place update of one key (HashMap::get_mut followed by
field writes). -/
def alistUpdate {κ α : Type} [DecidableEq κ] (k : κ) (f : α → α)
    (l : List (κ × α)) : List (κ × α) :=
  l.map (fun p => if p.1 = k then (p.1, f p.2) else p)

/-- Association-list removal of one key (HashMap::remove). -/
def alistRemove {κ α : Type} [DecidableEq κ] (k : κ) (l : List (κ × α)) :
    List (κ × α) :=
  l.filter (fun p => ¬(p.1 = k))

/-- Errors surfaced by the plugin manager, from the plugins types module
(PluginError variants used in manager.rs) together with the anyhow bail
messages of manager.rs. -/
inductive PluginError where
  | NotFound (plugin_id : String)
  | Timeout (duration_ms : Nat)
  | CapacityExceeded (msg : String)
  | LoadFailed (msg : String)
  | ExecutionFailed (msg : String)
  | DecodeFailed (msg : String)
deriving DecidableEq

/-- Execution-time metadata attached to a plugin reply, from the plugins
types module (field written by manager.rs line 234). -/
structure PluginOutputMetadata where
  execution_time_ms : Nat
deriving DecidableEq

/-- A deserialized plugin reply, from the plugins types module. -/
structure PluginOutput where
  data : String
  metadata : PluginOutputMetadata
deriving DecidableEq

/-- Outcome of one wasm execution as observed by the host.  The wall clock and
the guest's behaviour are outside the embedding, so the branch taken by
manager.rs lines 209-226 is an input: timeout stands for the tokio timeout
expiring, hostError for execute_plugin_internal failing, decodeError for
serde_json::from_slice failing on the reply, ok for a decoded reply. -/
inductive ExecOutcome where
  | timeout
  | hostError (msg : String)
  | decodeError
  | ok (out : PluginOutput)
deriving DecidableEq

/-- Outcome of the fallible wasm steps of a load as observed by the host
(module compile, instantiation, metadata call and decode, plugin_init), from
manager.rs lines 104-141. -/
inductive LoadOutcome where
  | moduleError
  | instantiateError
  | metadataError
  | initError
  | ok (metadata : PluginMetadata)
deriving DecidableEq

/-- The uuid counter rendered as the source renders it ({:016x} of a counter);
injectivity of the rendering is not needed, freshness is by the counter. -/
def uuidString (n : Nat) : String :=
  Nat.toDigits 16 n |> List.asString

/-- PluginManager::update_plugin_error, from manager.rs lines 380-386:
increment error_count and set status Error, if the plugin is present. -/
def PluginManager.update_plugin_error (m : PluginManager) (plugin_id : String) :
    PluginManager :=
  let bump : PluginInfo → PluginInfo := fun info =>
    { info with
      error_count := info.error_count + 1,
      status := PluginStatus.Error }
  { m with plugins := alistUpdate plugin_id bump m.plugins }

/-- PluginManager::update_plugin_stats, from manager.rs lines 370-377. -/
def PluginManager.update_plugin_stats (m : PluginManager) (plugin_id : String)
    (execution_time_ms : Nat) : PluginManager :=
  let bump : PluginInfo → PluginInfo := fun info =>
    { info with
      execution_count := info.execution_count + 1,
      total_execution_time_ms := info.total_execution_time_ms + execution_time_ms }
  { m with plugins := alistUpdate plugin_id bump m.plugins }

/-- PluginManager::load_plugin_from_bytes, from manager.rs lines 95-156: bail
on the concurrent-plugin limit first; then the wasm steps may fail (state
unchanged); on success mint a plugin id from the metadata name and the uuid
counter, build a Ready PluginInfo with zeroed counters, and insert it. -/
def PluginManager.load_plugin_from_bytes (m : PluginManager)
    (outcome : LoadOutcome) : PluginManager × Except PluginError String :=
  if m.plugins.length ≥ m.config.max_concurrent_plugins then
    (m, Except.error (PluginError.CapacityExceeded
      "Maximum concurrent plugins limit reached"))
  else
    match outcome with
    | LoadOutcome.moduleError =>
        (m, Except.error (PluginError.LoadFailed "Failed to load WASM module"))
    | LoadOutcome.instantiateError =>
        (m, Except.error (PluginError.LoadFailed "Failed to instantiate WASM module"))
    | LoadOutcome.metadataError =>
        (m, Except.error (PluginError.LoadFailed "Failed to get plugin metadata"))
    | LoadOutcome.initError =>
        (m, Except.error (PluginError.LoadFailed "Failed to initialize plugin"))
    | LoadOutcome.ok metadata =>
        let plugin_id := metadata.name ++ "_" ++ uuidString m.next_uuid
        let info : PluginInfo :=
          { id := plugin_id
            metadata := metadata
            status := PluginStatus.Ready
            execution_count := 0
            total_execution_time_ms := 0
            error_count := 0 }
        ({ m with
            plugins := alistInsert plugin_id info m.plugins,
            next_uuid := m.next_uuid + 1 },
         Except.ok plugin_id)

/-- PluginManager::unload_plugin, from manager.rs lines 159-179: NotFound when
absent; otherwise the record is removed (the transient Unloading status is
overwritten by the removal; shutdown_plugin ignores call failures). -/
def PluginManager.unload_plugin (m : PluginManager) (plugin_id : String) :
    PluginManager × Except PluginError Unit :=
  match alistFind plugin_id m.plugins with
  | none => (m, Except.error (PluginError.NotFound plugin_id))
  | some _ => ({ m with plugins := alistRemove plugin_id m.plugins }, Except.ok ())

/-- PluginManager::execute_plugin, from manager.rs lines 182-240: NotFound when
absent; on the timeout branch update_plugin_error then bail with
PluginError::Timeout of the configured max_execution_time_ms; on an internal
execution error update_plugin_error and propagate; on a reply decode failure
propagate without touching the error counter; on success stamp the elapsed
time into the reply metadata and update_plugin_stats. -/
def PluginManager.execute_plugin (m : PluginManager) (plugin_id : String)
    (outcome : ExecOutcome) (elapsed_ms : Nat) :
    PluginManager × Except PluginError PluginOutput :=
  match alistFind plugin_id m.plugins with
  | none => (m, Except.error (PluginError.NotFound plugin_id))
  | some _ =>
    match outcome with
    | ExecOutcome.timeout =>
        (m.update_plugin_error plugin_id,
         Except.error (PluginError.Timeout
           m.config.runtime_config.limits.max_execution_time_ms))
    | ExecOutcome.hostError msg =>
        (m.update_plugin_error plugin_id,
         Except.error (PluginError.ExecutionFailed msg))
    | ExecOutcome.decodeError =>
        (m, Except.error (PluginError.DecodeFailed
          "Failed to deserialize plugin output"))
    | ExecOutcome.ok out =>
        (m.update_plugin_stats plugin_id elapsed_ms,
         Except.ok { out with
           metadata := { out.metadata with execution_time_ms := elapsed_ms } })

/-- PluginManager::list_plugins, from manager.rs lines 389-392. -/
def PluginManager.list_plugins (m : PluginManager) : List PluginInfo :=
  m.plugins.map (fun p => p.2)

/-- PluginManager::get_plugin_info, from manager.rs lines 395-398. -/
def PluginManager.get_plugin_info (m : PluginManager) (plugin_id : String) :
    Option PluginInfo :=
  alistFind plugin_id m.plugins

/-- PluginManager::plugin_count, from manager.rs lines 401-403. -/
def PluginManager.plugin_count (m : PluginManager) : Nat :=
  m.plugins.length

/-! ## Distributed subsystem: data model

The coordinator facade itself is src/core/src/distributed/coordinator.rs.  The
modules it calls (cluster.rs, jobs.rs, types.rs, protocol.rs) are not present
in the source tree, so ClusterState, the JobQueue and the Job record are
modelled from the specification (sections 3, 4.1 and 4.2); their doc comments
say so.  Job and task ids are uuid strings in the source; they are opaque
server-generated tokens, embedded here as naturals minted from a fresh
counter standing for uuid::Uuid::new_v4.  Wall-clock timestamps are passed in
as arguments where the source calls Utc::now. -/

/-- Worker status, from the spec data model (section 3). -/
inductive WorkerStatus where
  | Idle
  | Busy
  | Unhealthy
  | Failed
  | Draining
deriving DecidableEq

/-- Worker record, fields as constructed by Coordinator::register_worker
(coordinator.rs lines 166-178); timestamps are naturals. -/
structure WorkerInfo where
  id : String
  address : String
  status : WorkerStatus
  capacity : Nat
  current_tasks : Nat
  completed_tasks : Nat
  failed_tasks : Nat
  tags : List String
  metadata : List (String × String)
  last_heartbeat : Nat
  registered_at : Nat
deriving DecidableEq

/-- Job status, from the spec data model (section 3). -/
inductive JobStatus where
  | Pending
  | Running
  | Completed
  | Failed
  | Cancelled
deriving DecidableEq

/-- Whether a job status is terminal (spec section 3: the lattice
Pending → Running → terminal set). -/
def JobStatus.isTerminal : JobStatus → Bool
  | JobStatus.Completed => true
  | JobStatus.Failed => true
  | JobStatus.Cancelled => true
  | _ => false

/-- Modelled from the spec: the Display rendering used by
JobStatusResponse.status (jobs.rs is absent; the spec names the five states). -/
def JobStatus.render : JobStatus → String
  | JobStatus.Pending => "Pending"
  | JobStatus.Running => "Running"
  | JobStatus.Completed => "Completed"
  | JobStatus.Failed => "Failed"
  | JobStatus.Cancelled => "Cancelled"

/-- Job submission request, fields as read by Coordinator::submit_job and
Coordinator::pull_tasks (job_type, payload, metadata, timeout_seconds). -/
structure JobRequest where
  job_type : String
  payload : String
  metadata : List (String × String)
  timeout_seconds : Option Nat
deriving DecidableEq

/-- Modelled from the spec: the Job record (jobs.rs is absent; spec section 3
lists the attributes: status, timeouts, retry counter, timestamps, result and
error blobs, the ordered task list, and a completed-task count driving
Progress = completed-tasks / total-tasks). -/
structure Job where
  id : Nat
  job_type : String
  payload : String
  metadata : List (String × String)
  status : JobStatus
  timeout_seconds : Option Nat
  retry_count : Nat
  tasks : List Nat
  completed_count : Nat
  result : Option String
  error : Option String
  created_at : Nat
  started_at : Option Nat
  completed_at : Option Nat
deriving DecidableEq

/-- Modelled from the spec: Job::from_request (jobs.rs is absent; spec 4.2:
submit gives initial status Pending; counters and task list start empty). -/
def Job.from_request (id : Nat) (request : JobRequest) : Job :=
  { id := id
    job_type := request.job_type
    payload := request.payload
    metadata := request.metadata
    status := JobStatus.Pending
    timeout_seconds := request.timeout_seconds
    retry_count := 0
    tasks := []
    completed_count := 0
    result := none
    error := none
    created_at := 0
    started_at := none
    completed_at := none }

/-- Modelled from the spec: Progress = completed-tasks / total-tasks in [0,1]
(spec section 3). -/
def Job.progress (j : Job) : ℚ :=
  if j.tasks.length = 0 then 0 else (j.completed_count : ℚ) / (j.tasks.length : ℚ)

/-- Modelled from the spec: the job queue (jobs.rs is absent; spec 4.2:
pending jobs in submission order — FIFO is the default ordering — running
jobs, and a bounded ring buffer of the max_completed_jobs most recent
terminal jobs). -/
structure JobQueue where
  pending : List Job
  running : List Job
  finished : List Job
  max_completed_jobs : Nat
deriving DecidableEq

/-- JobQueue::new(max_completed_jobs), as called by Coordinator::new. -/
def JobQueue.new (max_completed_jobs : Nat) : JobQueue :=
  { pending := [], running := [], finished := [], max_completed_jobs := max_completed_jobs }

/-- All jobs tracked by the queue, in the order get() scans them. -/
def JobQueue.allJobs (q : JobQueue) : List Job :=
  q.pending ++ q.running ++ q.finished

/-- Modelled from the spec: submit(Job) enqueues at the tail of the pending
list (FIFO by submission time). -/
def JobQueue.submit (q : JobQueue) (j : Job) : JobQueue :=
  { q with pending := q.pending ++ [j] }

/-- Modelled from the spec: terminal jobs move to a ring buffer of the
max_completed_jobs most recent; older records are dropped. -/
def JobQueue.pushFinished (q : JobQueue) (j : Job) : JobQueue :=
  let l := q.finished ++ [j]
  { q with finished := l.drop (l.length - q.max_completed_jobs) }

/-- Modelled from the spec: next() pops the first pending job (FIFO default),
transitions it to Running recording started-at, and tracks it as running. -/
def JobQueue.next (q : JobQueue) : Option (Job × JobQueue) :=
  match q.pending with
  | [] => none
  | j :: rest =>
      let j' := { j with status := JobStatus.Running, started_at := some 0 }
      some (j', { q with pending := rest, running := q.running ++ [j'] })

/-- Modelled from the spec: get(JobId); a get on an evicted id returns None. -/
def JobQueue.get (q : JobQueue) (id : Nat) : Option Job :=
  q.allJobs.find? (fun j => j.id = id)

/-- First job with the given id in a list, together with the remainder. -/
def extractById (id : Nat) : List Job → Option (Job × List Job)
  | [] => none
  | j :: rest =>
      if j.id = id then some (j, rest)
      else
        match extractById id rest with
        | some (x, r) => some (x, j :: r)
        | none => none

/-- Modelled from the spec: cancel(JobId, reason) succeeds only for
non-terminal jobs (pending or running), marking the job Cancelled and moving
it to the ring buffer; returns false otherwise.  In-flight tasks are not
recalled. -/
def JobQueue.cancel (q : JobQueue) (id : Nat) (reason : String) : JobQueue × Bool :=
  match extractById id q.pending with
  | some (j, rest) =>
      (JobQueue.pushFinished { q with pending := rest }
        { j with status := JobStatus.Cancelled, error := some reason }, true)
  | none =>
      match extractById id q.running with
      | some (j, rest) =>
          (JobQueue.pushFinished { q with running := rest }
            { j with status := JobStatus.Cancelled, error := some reason }, true)
      | none => (q, false)

/-- Modelled from the spec: list_pending(). -/
def JobQueue.list_pending (q : JobQueue) : List Job :=
  q.pending

/-- Queue statistics, from the spec 4.2 contract stats(). -/
structure QueueStats where
  pending_jobs : Nat
  running_jobs : Nat
  completed_jobs : Nat
deriving DecidableEq

/-- Modelled from the spec: stats() reports pending, running and retained
terminal counts. -/
def JobQueue.stats (q : JobQueue) : QueueStats :=
  { pending_jobs := q.pending.length
    running_jobs := q.running.length
    completed_jobs := q.finished.length }

/-- Modelled from the spec: the cluster state (cluster.rs is absent; spec 4.1:
a hash-indexed worker registry plus job counters, spec 4.1 metrics). -/
structure ClusterState where
  workers : List WorkerInfo
  total_jobs : Nat
  completed_jobs : Nat
  failed_jobs : Nat
deriving DecidableEq

/-- ClusterState::new, as called by Coordinator::new. -/
def ClusterState.new : ClusterState :=
  { workers := [], total_jobs := 0, completed_jobs := 0, failed_jobs := 0 }

/-- Map one worker record in place, leaving the registry untouched when the
id is absent (spec 4.1: updates of an unknown id are silently dropped). -/
def updateWorkers (wid : String) (f : WorkerInfo → WorkerInfo)
    (ws : List WorkerInfo) : List WorkerInfo :=
  ws.map (fun w => if w.id = wid then f w else w)

/-- Modelled from the spec: register(Worker) is an upsert — registration with
an existing id replaces the record. -/
def ClusterState.register_worker (cs : ClusterState) (w : WorkerInfo) : ClusterState :=
  { cs with workers := w :: cs.workers.filter (fun x => ¬(x.id = w.id)) }

/-- Modelled from the spec: deregister(WorkerId) returns the removed record,
None for an unknown id. -/
def ClusterState.deregister_worker (cs : ClusterState) (wid : String) :
    ClusterState × Option WorkerInfo :=
  match cs.workers.find? (fun w => w.id = wid) with
  | none => (cs, none)
  | some w => ({ cs with workers := cs.workers.filter (fun x => ¬(x.id = wid)) }, some w)

/-- Modelled from the spec: get(WorkerId). -/
def ClusterState.get_worker (cs : ClusterState) (wid : String) : Option WorkerInfo :=
  cs.workers.find? (fun w => w.id = wid)

/-- Modelled from the spec: update_heartbeat touches only last_heartbeat;
unknown ids are silently dropped. -/
def ClusterState.update_worker_heartbeat (cs : ClusterState) (wid : String)
    (now : Nat) : ClusterState :=
  let touch : WorkerInfo → WorkerInfo := fun w => { w with last_heartbeat := now }
  { cs with workers := updateWorkers wid touch cs.workers }

/-- Modelled from the spec: increment_tasks(WorkerId) bumps the worker's
current-task count. -/
def ClusterState.increment_worker_tasks (cs : ClusterState) (wid : String) :
    ClusterState :=
  let bump : WorkerInfo → WorkerInfo := fun w =>
    { w with current_tasks := w.current_tasks + 1 }
  { cs with workers := updateWorkers wid bump cs.workers }

/-- Modelled from the spec: decrement_tasks(WorkerId, success) drops the
current-task count by one and bumps the completed or failed counter per the
result (spec 4.1 and 4.4). -/
def ClusterState.decrement_worker_tasks (cs : ClusterState) (wid : String)
    (success : Bool) : ClusterState :=
  let f : WorkerInfo → WorkerInfo := fun w =>
    if success then
      { w with current_tasks := w.current_tasks - 1,
               completed_tasks := w.completed_tasks + 1 }
    else
      { w with current_tasks := w.current_tasks - 1,
               failed_tasks := w.failed_tasks + 1 }
  { cs with workers := updateWorkers wid f cs.workers }

/-- Modelled from the spec: the submitted-jobs counter. -/
def ClusterState.increment_jobs (cs : ClusterState) : ClusterState :=
  { cs with total_jobs := cs.total_jobs + 1 }

/-- Modelled from the spec: the completed-jobs counter. -/
def ClusterState.increment_completed_jobs (cs : ClusterState) : ClusterState :=
  { cs with completed_jobs := cs.completed_jobs + 1 }

/-- Modelled from the spec: the failed-jobs counter. -/
def ClusterState.increment_failed_jobs (cs : ClusterState) : ClusterState :=
  { cs with failed_jobs := cs.failed_jobs + 1 }

/-- Cluster metrics snapshot, from the spec 4.1 (uptime is wall clock,
outside the embedding, reported as zero). -/
structure ClusterMetrics where
  total_workers : Nat
  active_workers : Nat
  total_jobs : Nat
  completed_jobs : Nat
  failed_jobs : Nat
  uptime_seconds : Nat
deriving DecidableEq

/-- Modelled from the spec: metrics() — active workers are those with status
Idle or Busy. -/
def ClusterState.metrics (cs : ClusterState) : ClusterMetrics :=
  { total_workers := cs.workers.length
    active_workers := (cs.workers.filter (fun w =>
      w.status = WorkerStatus.Idle ∨ w.status = WorkerStatus.Busy)).length
    total_jobs := cs.total_jobs
    completed_jobs := cs.completed_jobs
    failed_jobs := cs.failed_jobs
    uptime_seconds := 0 }

/-! ## Distributed subsystem: protocol messages and the coordinator facade -/

/-- Worker registration request, fields as read by register_worker
(coordinator.rs lines 163-189; capabilities carry no claim-relevant data). -/
structure RegisterRequest where
  worker_id : String
  address : String
  capacity : Nat
  tags : List String
  metadata : List (String × String)
deriving DecidableEq

/-- Registration response, from coordinator.rs lines 182-188. -/
structure RegisterResponse where
  success : Bool
  coordinator_version : String
  assigned_worker_id : String
  heartbeat_interval : Nat
  message : String
deriving DecidableEq

/-- Deregistration request, fields as read by deregister_worker. -/
structure DeregisterRequest where
  worker_id : String
  reason : String
deriving DecidableEq

/-- Deregistration response, from coordinator.rs lines 192-206. -/
structure DeregisterResponse where
  success : Bool
  message : String
deriving DecidableEq

/-- Heartbeat request, fields as read by handle_heartbeat. -/
structure HeartbeatRequest where
  worker_id : String
deriving DecidableEq

/-- Heartbeat response, from coordinator.rs lines 209-220 (the timestamp is
wall clock, outside the embedding). -/
structure HeartbeatResponse where
  acknowledged : Bool
  has_pending_tasks : Bool
deriving DecidableEq

/-- Job submission response, from coordinator.rs lines 237-242. -/
structure JobResponse where
  job_id : Nat
  success : Bool
  message : String
deriving DecidableEq

/-- Job status request, field as read by get_job_status. -/
structure JobStatusRequest where
  job_id : Nat
deriving DecidableEq

/-- Job status response, from coordinator.rs lines 249-258. -/
structure JobStatusResponse where
  job_id : Nat
  status : String
  progress : ℚ
  result : Option String
  error : Option String
  created_at : Nat
  started_at : Option Nat
  completed_at : Option Nat
deriving DecidableEq

/-- Cancel request, fields as read by cancel_job. -/
structure CancelJobRequest where
  job_id : Nat
  reason : String
deriving DecidableEq

/-- Cancel response, from coordinator.rs lines 262-274. -/
structure CancelJobResponse where
  success : Bool
  message : String
deriving DecidableEq

/-- Pull request, fields as read by pull_tasks. -/
structure PullTaskRequest where
  worker_id : String
  count : Nat
deriving DecidableEq

/-- A task handed to a worker, built in pull_tasks (coordinator.rs
lines 299-307). -/
structure TaskRequest where
  task_id : Nat
  job_id : Nat
  task_type : String
  payload : String
  metadata : List (String × String)
  timeout_seconds : Option Nat
  retry_count : Nat
deriving DecidableEq

/-- Pull response, from coordinator.rs lines 330-333. -/
structure PullTaskResponse where
  tasks : List TaskRequest
  message : String
deriving DecidableEq

/-- A worker's report on a finished task, fields as read by complete_task
(protocol.rs is absent; only success is consulted, the blobs ride along). -/
structure TaskResponse where
  task_id : Nat
  success : Bool
  result : Option String
  error : Option String
deriving DecidableEq

/-- Coordinator configuration, from coordinator.rs lines 28-42. -/
structure CoordinatorConfig where
  heartbeat_interval : Nat
  health_check_timeout : Nat
  unhealthy_threshold : Nat
  max_retries : Nat
  max_completed_jobs : Nat
deriving DecidableEq

/-- The Default impl for CoordinatorConfig (coordinator.rs lines 44-55 with
the spec's defaults for the constants of the absent distributed/mod.rs). -/
def CoordinatorConfig.default : CoordinatorConfig :=
  { heartbeat_interval := 10
    health_check_timeout := 30
    unhealthy_threshold := 30
    max_retries := 3
    max_completed_jobs := 1000 }

/-- Coordinator state, from coordinator.rs lines 102-113: cluster state, job
queue and the task-assignment ledger (task id to worker id), plus the uuid
counter embedding uuid::Uuid::new_v4. -/
structure Coordinator where
  config : CoordinatorConfig
  cluster : ClusterState
  jobs : JobQueue
  task_assignments : List (Nat × String)
  next_uuid : Nat
deriving DecidableEq

/-- Coordinator::new, from coordinator.rs lines 117-135. -/
def Coordinator.new (config : CoordinatorConfig) : Coordinator :=
  { config := config
    cluster := ClusterState.new
    jobs := JobQueue.new config.max_completed_jobs
    task_assignments := []
    next_uuid := 0 }

/-- Coordinator::register_worker, from coordinator.rs lines 163-189: build a
fresh Idle record with zeroed counters and upsert it; the response always
reports success and echoes the requested worker id. -/
def Coordinator.register_worker (c : Coordinator) (request : RegisterRequest)
    (now : Nat) : Coordinator × RegisterResponse :=
  let worker : WorkerInfo :=
    { id := request.worker_id
      address := request.address
      status := WorkerStatus.Idle
      capacity := request.capacity
      current_tasks := 0
      completed_tasks := 0
      failed_tasks := 0
      tags := request.tags
      metadata := request.metadata
      last_heartbeat := now
      registered_at := now }
  ({ c with cluster := c.cluster.register_worker worker },
   { success := true
     coordinator_version := "0.1.0"
     assigned_worker_id := request.worker_id
     heartbeat_interval := c.config.heartbeat_interval
     message := "Worker registered successfully" })

/-- Coordinator::deregister_worker, from coordinator.rs lines 192-206. -/
def Coordinator.deregister_worker (c : Coordinator) (request : DeregisterRequest) :
    Coordinator × DeregisterResponse :=
  match c.cluster.deregister_worker request.worker_id with
  | (cl, some _) =>
      ({ c with cluster := cl },
       { success := true, message := "Worker deregistered successfully" })
  | (_, none) =>
      (c, { success := false, message := "Worker not found" })

/-- Coordinator::handle_heartbeat, from coordinator.rs lines 209-220. -/
def Coordinator.handle_heartbeat (c : Coordinator) (request : HeartbeatRequest)
    (now : Nat) : Coordinator × HeartbeatResponse :=
  ({ c with cluster := c.cluster.update_worker_heartbeat request.worker_id now },
   { acknowledged := true
     has_pending_tasks := ¬(c.jobs.list_pending = []) })

/-- Coordinator::submit_job, from coordinator.rs lines 223-243: mint a job id
and a single task id, push the task onto the job, enqueue it and count the
submission. -/
def Coordinator.submit_job (c : Coordinator) (request : JobRequest) :
    Coordinator × JobResponse :=
  let job_id := c.next_uuid
  let task_id := c.next_uuid + 1
  let job0 := Job.from_request job_id request
  let job := { job0 with tasks := job0.tasks ++ [task_id] }
  ({ c with
      jobs := c.jobs.submit job,
      cluster := c.cluster.increment_jobs,
      next_uuid := c.next_uuid + 2 },
   { job_id := job_id
     success := true
     message := "Job submitted successfully" })

/-- Coordinator::get_job_status, from coordinator.rs lines 246-259. -/
def Coordinator.get_job_status (c : Coordinator) (request : JobStatusRequest) :
    Option JobStatusResponse :=
  (c.jobs.get request.job_id).map (fun job =>
    { job_id := job.id
      status := job.status.render
      progress := job.progress
      result := job.result
      error := job.error
      created_at := job.created_at
      started_at := job.started_at
      completed_at := job.completed_at })

/-- Coordinator::cancel_job, from coordinator.rs lines 262-274. -/
def Coordinator.cancel_job (c : Coordinator) (request : CancelJobRequest) :
    Coordinator × CancelJobResponse :=
  let r := c.jobs.cancel request.job_id request.reason
  if r.2 then
    ({ c with jobs := r.1 },
     { success := true, message := "Job cancelled successfully" })
  else
    (c, { success := false, message := "Job not found or already completed" })

/-- The body of the pull loop of Coordinator::pull_tasks (coordinator.rs
lines 295-327), iterated count times: pop the next pending job; if it has a
first task, hand that task out, record the assignment in the ledger and bump
the worker's current-task count; a job with no tasks is skipped; an empty
queue stops the loop.  The source records the assignment on a spawned task;
the spec (section 9) directs that it be recorded synchronously, which a
sequential embedding also is. -/
def pullLoop (wid : String) : Nat → Coordinator → List TaskRequest × Coordinator
  | 0, c => ([], c)
  | n + 1, c =>
      match c.jobs.next with
      | none => ([], c)
      | some (job, jq) =>
          match job.tasks.head? with
          | some task_id =>
              let tr : TaskRequest :=
                { task_id := task_id
                  job_id := job.id
                  task_type := job.job_type
                  payload := job.payload
                  metadata := job.metadata
                  timeout_seconds := job.timeout_seconds
                  retry_count := job.retry_count }
              let c' : Coordinator :=
                { c with
                    jobs := jq,
                    task_assignments := alistInsert task_id wid c.task_assignments,
                    cluster := c.cluster.increment_worker_tasks wid }
              let rest := pullLoop wid n c'
              (tr :: rest.1, rest.2)
          | none =>
              pullLoop wid n { c with jobs := jq }

/-- Coordinator::pull_tasks, from coordinator.rs lines 277-334: unknown worker
gives an empty response and no state change; otherwise pull up to
min(count, capacity - current_tasks) tasks (saturating subtraction). -/
def Coordinator.pull_tasks (c : Coordinator) (request : PullTaskRequest) :
    Coordinator × PullTaskResponse :=
  match c.cluster.get_worker request.worker_id with
  | none => (c, { tasks := [], message := "Worker not found" })
  | some worker =>
      let available := worker.capacity - worker.current_tasks
      let count := min request.count available
      let r := pullLoop request.worker_id count c
      (r.2, { tasks := r.1,
              message := "Assigned " ++ toString r.1.length ++ " tasks" })

/-- Coordinator::complete_task, from coordinator.rs lines 337-361: look the
worker up in the assignment ledger (no-op when absent), decrement its task
count crediting completed or failed, bump the cluster completed- or
failed-jobs counter per the result, and drop the assignment.  The job queue
is not consulted. -/
def Coordinator.complete_task (c : Coordinator) (task_id : Nat)
    (result : TaskResponse) : Coordinator :=
  match alistFind task_id c.task_assignments with
  | none => c
  | some worker_id =>
      let cl := c.cluster.decrement_worker_tasks worker_id result.success
      let cl := if result.success then cl.increment_completed_jobs
                else cl.increment_failed_jobs
      { c with
          cluster := cl,
          task_assignments := alistRemove task_id c.task_assignments }

/-- Cluster statistics response, from coordinator.rs lines 407-422 (the
average duration is a constant 0.0 in the source). -/
structure ClusterStatsResponse where
  total_workers : Nat
  active_workers : Nat
  total_jobs : Nat
  pending_jobs : Nat
  running_jobs : Nat
  completed_jobs : Nat
  failed_jobs : Nat
  uptime_seconds : Nat
deriving DecidableEq

/-- Coordinator::get_cluster_stats, from coordinator.rs lines 407-422. -/
def Coordinator.get_cluster_stats (c : Coordinator) : ClusterStatsResponse :=
  let metrics := c.cluster.metrics
  let queue_stats := c.jobs.stats
  { total_workers := metrics.total_workers
    active_workers := metrics.active_workers
    total_jobs := metrics.total_jobs
    pending_jobs := queue_stats.pending_jobs
    running_jobs := queue_stats.running_jobs
    completed_jobs := metrics.completed_jobs
    failed_jobs := metrics.failed_jobs
    uptime_seconds := metrics.uptime_seconds }

/-- One facade operation, for quantifying over everything a client can do to
the coordinator after a point in time (reads are pure functions and do not
appear: they cannot change state by construction). -/
inductive Op where
  | register (request : RegisterRequest) (now : Nat)
  | deregister (request : DeregisterRequest)
  | heartbeat (request : HeartbeatRequest) (now : Nat)
  | submit (request : JobRequest)
  | cancel (request : CancelJobRequest)
  | pull (request : PullTaskRequest)
  | complete (task_id : Nat) (result : TaskResponse)
deriving DecidableEq

/-- The state transition of one facade operation. -/
def applyOp (c : Coordinator) : Op → Coordinator
  | Op.register request now => (c.register_worker request now).1
  | Op.deregister request => (c.deregister_worker request).1
  | Op.heartbeat request now => (c.handle_heartbeat request now).1
  | Op.submit request => (c.submit_job request).1
  | Op.cancel request => (c.cancel_job request).1
  | Op.pull request => (c.pull_tasks request).1
  | Op.complete task_id result => c.complete_task task_id result

/-- A sequence of facade operations applied in order. -/
def applyOps (c : Coordinator) : List Op → Coordinator
  | [] => c
  | op :: rest => applyOps (applyOp c op) rest

/-! ## Helper lemmas about the association-list and registry operations -/

theorem alistFind_update_self {κ α : Type} [DecidableEq κ] (k : κ) (f : α → α)
    (l : List (κ × α)) :
    alistFind k (alistUpdate k f l) = (alistFind k l).map f := by
  induction l with
  | nil => rfl
  | cons p rest ih =>
      by_cases h : p.1 = k
      · simp [alistFind, alistUpdate, h]
      · simp only [alistFind, alistUpdate, List.map_cons] at ih ⊢
        rw [if_neg h, List.find?_cons_of_neg _ (by simpa using h),
          List.find?_cons_of_neg _ (by simpa using h)]
        exact ih

theorem alistFind_mem {κ α : Type} [DecidableEq κ] {k : κ} {v : α}
    {l : List (κ × α)} (h : alistFind k l = some v) : v ∈ l.map (fun p => p.2) := by
  unfold alistFind at h
  cases hf : l.find? (fun p => p.1 = k) with
  | none => rw [hf] at h; simp at h
  | some p =>
      rw [hf] at h
      have hv : p.2 = v := by simpa using h
      exact hv ▸ List.mem_map_of_mem _ (List.mem_of_find?_eq_some hf)

theorem alistUpdate_length {κ α : Type} [DecidableEq κ] (k : κ) (f : α → α)
    (l : List (κ × α)) : (alistUpdate k f l).length = l.length := by
  simp [alistUpdate]

theorem alistInsert_length_le {κ α : Type} [DecidableEq κ] (k : κ) (v : α)
    (l : List (κ × α)) : (alistInsert k v l).length ≤ l.length + 1 := by
  simp only [alistInsert, List.length_cons]
  exact Nat.succ_le_succ (List.length_filter_le _ _)

theorem alistRemove_length_le {κ α : Type} [DecidableEq κ] (k : κ)
    (l : List (κ × α)) : (alistRemove k l).length ≤ l.length := by
  simp only [alistRemove]
  exact List.length_filter_le _ _

theorem updateWorkers_find (wid : String) (f : WorkerInfo → WorkerInfo)
    (hf : ∀ w, (f w).id = w.id) (ws : List WorkerInfo) :
    (updateWorkers wid f ws).find? (fun w => w.id = wid)
      = (ws.find? (fun w => w.id = wid)).map f := by
  induction ws with
  | nil => rfl
  | cons w rest ih =>
      by_cases h : w.id = wid
      · simp only [updateWorkers, List.map_cons, if_pos h]
        rw [List.find?_cons_of_pos _ (by simpa using (hf w).trans h),
          List.find?_cons_of_pos _ (by simpa using h)]
        simp
      · simp only [updateWorkers, List.map_cons, if_neg h]
        rw [List.find?_cons_of_neg _ (by simpa using h),
          List.find?_cons_of_neg _ (by simpa using h)]
        exact ih

/-! ## Claim theorems: plugin subsystem -/

/-- C8: for every plugin memory growth request against the limiter installed
by create_store, growth is granted exactly when the desired size does not
exceed the configured max_memory_bytes, and a refusal is the Ok(false)
answer, not a host trap. -/
theorem memory_growing_grants_iff_within_cap (config : RuntimeConfig)
    (current desired : Nat) (maximum : Option Nat) :
    ((WasmRuntime.create_store config).memory_growing current desired maximum
        = Except.ok true ↔ desired ≤ config.limits.max_memory_bytes)
    ∧ ((WasmRuntime.create_store config).memory_growing current desired maximum
        = Except.ok false ↔ config.limits.max_memory_bytes < desired) := by
  unfold WasmRuntime.create_store StoreLimits.memory_growing StoreLimits.default
  by_cases h : desired > config.limits.max_memory_bytes
  · rw [if_pos h]
    constructor
    · simp [Nat.not_le_of_lt h]
    · simpa using h
  · rw [if_neg h]
    constructor
    · simpa using Nat.le_of_not_lt h
    · simp [h]

/-- C4: executing a loaded plugin whose wasm run hits the wall-clock timeout
returns the Timeout error carrying the configured max_execution_time_ms, and
leaves the plugin with status Error and error_count one higher, visible to a
subsequent get and list. -/
theorem execute_plugin_timeout_marks_error (m : PluginManager)
    (plugin_id : String) (elapsed_ms : Nat) (info : PluginInfo)
    (h : m.get_plugin_info plugin_id = some info) :
    (m.execute_plugin plugin_id ExecOutcome.timeout elapsed_ms).2
        = Except.error (PluginError.Timeout
            m.config.runtime_config.limits.max_execution_time_ms)
    ∧ (m.execute_plugin plugin_id ExecOutcome.timeout elapsed_ms).1.get_plugin_info
          plugin_id
        = some { info with
            error_count := info.error_count + 1, status := PluginStatus.Error }
    ∧ { info with error_count := info.error_count + 1, status := PluginStatus.Error }
        ∈ (m.execute_plugin plugin_id ExecOutcome.timeout elapsed_ms).1.list_plugins := by
  have hfind : alistFind plugin_id m.plugins = some info := h
  have hget : (m.update_plugin_error plugin_id).get_plugin_info plugin_id
      = some { info with
          error_count := info.error_count + 1, status := PluginStatus.Error } := by
    unfold PluginManager.get_plugin_info PluginManager.update_plugin_error
    rw [alistFind_update_self, hfind]
    rfl
  refine ⟨?_, ?_, ?_⟩
  · unfold PluginManager.execute_plugin
    rw [hfind]
  · unfold PluginManager.execute_plugin
    rw [hfind]
    exact hget
  · unfold PluginManager.execute_plugin
    rw [hfind]
    exact alistFind_mem hget

/-- Concrete plugin manager used to witness the timeout claim. -/
def mgrC4 : PluginManager :=
  { config :=
      { runtime_config :=
          { limits :=
              { max_memory_bytes := 1024
                max_execution_time_ms := 50
                max_instructions := none }
            enable_wasi := true }
        max_concurrent_plugins := 100 }
    plugins :=
      [("p_0",
        { id := "p_0"
          metadata := { name := "p", version := "1" }
          status := PluginStatus.Ready
          execution_count := 0
          total_execution_time_ms := 0
          error_count := 0 })]
    next_uuid := 1 }

theorem execute_plugin_timeout_marks_error_witness :
    mgrC4.get_plugin_info "p_0" = some
      { id := "p_0"
        metadata := { name := "p", version := "1" }
        status := PluginStatus.Ready
        execution_count := 0
        total_execution_time_ms := 0
        error_count := 0 }
    ∧ (mgrC4.execute_plugin "p_0" ExecOutcome.timeout 200).2
        = Except.error (PluginError.Timeout 50) :=
  ⟨by decide,
   (execute_plugin_timeout_marks_error mgrC4 "p_0" 200
      { id := "p_0"
        metadata := { name := "p", version := "1" }
        status := PluginStatus.Ready
        execution_count := 0
        total_execution_time_ms := 0
        error_count := 0 } (by decide)).1⟩

/-- C5: the loaded-plugin count never exceeds max_concurrent_plugins: a load
at the limit fails with the capacity error and changes nothing, a load below
the limit grows the table by at most one and stays within the limit, and
unload and execute preserve the bound (list_plugins is a pure read and cannot
change state by construction). -/
theorem plugin_count_le_max (m : PluginManager) (load_outcome : LoadOutcome)
    (plugin_id : String) (exec_outcome : ExecOutcome) (elapsed_ms : Nat)
    (h : m.plugin_count ≤ m.config.max_concurrent_plugins) :
    (m.plugin_count ≥ m.config.max_concurrent_plugins →
        m.load_plugin_from_bytes load_outcome
          = (m, Except.error (PluginError.CapacityExceeded
              "Maximum concurrent plugins limit reached")))
    ∧ (m.load_plugin_from_bytes load_outcome).1.plugin_count ≤ m.plugin_count + 1
    ∧ (m.load_plugin_from_bytes load_outcome).1.plugin_count
        ≤ m.config.max_concurrent_plugins
    ∧ (m.unload_plugin plugin_id).1.plugin_count ≤ m.config.max_concurrent_plugins
    ∧ (m.execute_plugin plugin_id exec_outcome elapsed_ms).1.plugin_count
        ≤ m.config.max_concurrent_plugins := by
  refine ⟨?_, ?_, ?_, ?_, ?_⟩
  · intro hfull
    have hfull' : m.plugins.length ≥ m.config.max_concurrent_plugins := hfull
    unfold PluginManager.load_plugin_from_bytes
    rw [if_pos hfull']
  · unfold PluginManager.load_plugin_from_bytes
    by_cases hfull : m.plugins.length ≥ m.config.max_concurrent_plugins
    · rw [if_pos hfull]
      exact Nat.le_succ _
    · rw [if_neg hfull]
      cases load_outcome with
      | ok metadata =>
          simpa [PluginManager.plugin_count] using
            alistInsert_length_le (κ := String) (α := PluginInfo) _ _ m.plugins
      | moduleError => exact Nat.le_succ _
      | instantiateError => exact Nat.le_succ _
      | metadataError => exact Nat.le_succ _
      | initError => exact Nat.le_succ _
  · unfold PluginManager.load_plugin_from_bytes
    by_cases hfull : m.plugins.length ≥ m.config.max_concurrent_plugins
    · rw [if_pos hfull]; exact h
    · rw [if_neg hfull]
      have hlt : m.plugins.length < m.config.max_concurrent_plugins :=
        Nat.lt_of_not_le hfull
      cases load_outcome with
      | ok metadata =>
          have := alistInsert_length_le (κ := String) (α := PluginInfo)
            (metadata.name ++ "_" ++ uuidString m.next_uuid)
            { id := metadata.name ++ "_" ++ uuidString m.next_uuid
              metadata := metadata
              status := PluginStatus.Ready
              execution_count := 0
              total_execution_time_ms := 0
              error_count := 0 } m.plugins
          simp only [PluginManager.plugin_count]
          omega
      | moduleError => exact h
      | instantiateError => exact h
      | metadataError => exact h
      | initError => exact h
  · unfold PluginManager.unload_plugin
    cases hfind : alistFind plugin_id m.plugins with
    | none => exact h
    | some info =>
        refine Nat.le_trans ?_ h
        simpa [PluginManager.plugin_count] using
          alistRemove_length_le (κ := String) (α := PluginInfo) plugin_id m.plugins
  · unfold PluginManager.execute_plugin
    cases hfind : alistFind plugin_id m.plugins with
    | none => exact h
    | some info =>
        cases exec_outcome with
        | timeout =>
            simpa [PluginManager.plugin_count, PluginManager.update_plugin_error,
              alistUpdate_length] using h
        | hostError msg =>
            simpa [PluginManager.plugin_count, PluginManager.update_plugin_error,
              alistUpdate_length] using h
        | decodeError => exact h
        | ok out =>
            simpa [PluginManager.plugin_count, PluginManager.update_plugin_stats,
              alistUpdate_length] using h

/-- Concrete plugin manager at its capacity limit, to witness the bound. -/
def mgrC5 : PluginManager :=
  { config :=
      { runtime_config :=
          { limits :=
              { max_memory_bytes := 1024
                max_execution_time_ms := 50
                max_instructions := none }
            enable_wasi := true }
        max_concurrent_plugins := 1 }
    plugins :=
      [("q_0",
        { id := "q_0"
          metadata := { name := "q", version := "1" }
          status := PluginStatus.Ready
          execution_count := 0
          total_execution_time_ms := 0
          error_count := 0 })]
    next_uuid := 1 }

theorem plugin_count_le_max_witness :
    mgrC5.plugin_count ≤ mgrC5.config.max_concurrent_plugins
    ∧ (mgrC5.plugin_count ≥ mgrC5.config.max_concurrent_plugins →
        mgrC5.load_plugin_from_bytes
            (LoadOutcome.ok { name := "r", version := "1" })
          = (mgrC5, Except.error (PluginError.CapacityExceeded
              "Maximum concurrent plugins limit reached"))) :=
  ⟨by decide,
   (plugin_count_le_max mgrC5 (LoadOutcome.ok { name := "r", version := "1" })
      "q_0" ExecOutcome.timeout 10 (by decide)).1⟩

/-! ## Claim theorems: coordinator facade -/

/-- C7: a pull_tasks request naming a worker id absent from the registry
returns the empty task list with the explanatory message and leaves the whole
coordinator state (queue, ledger, cluster) unchanged. -/
theorem pull_tasks_unknown_worker (c : Coordinator) (request : PullTaskRequest)
    (h : c.cluster.get_worker request.worker_id = none) :
    c.pull_tasks request = (c, { tasks := [], message := "Worker not found" }) := by
  unfold Coordinator.pull_tasks
  rw [h]

theorem pull_tasks_unknown_worker_witness :
    (Coordinator.new CoordinatorConfig.default).cluster.get_worker "w1" = none
    ∧ (Coordinator.new CoordinatorConfig.default).pull_tasks
        { worker_id := "w1", count := 3 }
      = (Coordinator.new CoordinatorConfig.default,
         { tasks := [], message := "Worker not found" }) :=
  ⟨by decide,
   pull_tasks_unknown_worker (Coordinator.new CoordinatorConfig.default)
     { worker_id := "w1", count := 3 } (by decide)⟩

/-- C10: register_worker succeeds for every request — the response reports
success and echoes the requested worker id — and upserts an Idle record with
capacity from the request and all task counters zero; in particular a
re-registration of an existing id resets those counters. -/
theorem register_worker_installs_fresh_record (c : Coordinator)
    (request : RegisterRequest) (now : Nat) :
    (c.register_worker request now).2.success = true
    ∧ (c.register_worker request now).2.assigned_worker_id = request.worker_id
    ∧ (c.register_worker request now).1.cluster.get_worker request.worker_id
        = some
          { id := request.worker_id
            address := request.address
            status := WorkerStatus.Idle
            capacity := request.capacity
            current_tasks := 0
            completed_tasks := 0
            failed_tasks := 0
            tags := request.tags
            metadata := request.metadata
            last_heartbeat := now
            registered_at := now } := by
  refine ⟨rfl, rfl, ?_⟩
  unfold Coordinator.register_worker ClusterState.get_worker
    ClusterState.register_worker
  simp

/-- All job ids tracked by the queue were minted by the coordinator's uuid
counter: they lie strictly below next_uuid.  This holds for every state
reachable from Coordinator::new and licenses the freshness of newly minted
ids. -/
def Coordinator.IdBound (c : Coordinator) : Prop :=
  ∀ j ∈ c.jobs.allJobs, j.id < c.next_uuid

theorem find?_eq_none_of_idBound (n : Nat) (l : List Job)
    (hl : ∀ j ∈ l, j.id < n) : l.find? (fun j => j.id = n) = none := by
  rw [List.find?_eq_none]
  intro x hx
  simpa using Nat.ne_of_lt (hl x hx)

/-- C9: every job created through submit_job carries exactly one task: the
job stored under the returned job id has a task list of length one, and its
progress is zero or one. -/
theorem submit_job_single_task (c : Coordinator) (request : JobRequest)
    (hB : c.IdBound) :
    ∃ job, (c.submit_job request).1.jobs.get (c.submit_job request).2.job_id
        = some job
      ∧ job.tasks.length = 1
      ∧ (job.progress = 0 ∨ job.progress = 1) := by
  have hpend := find?_eq_none_of_idBound c.next_uuid c.jobs.pending
    (fun j hj => hB j (List.mem_append_left _ (List.mem_append_left _ hj)))
  have hrun := find?_eq_none_of_idBound c.next_uuid c.jobs.running
    (fun j hj => hB j (List.mem_append_left _ (List.mem_append_right _ hj)))
  have hfin := find?_eq_none_of_idBound c.next_uuid c.jobs.finished
    (fun j hj => hB j (List.mem_append_right _ hj))
  refine ⟨{ Job.from_request c.next_uuid request with
      tasks := [c.next_uuid + 1] }, ?_, rfl, ?_⟩
  · have key : (c.submit_job request).1.jobs.get (c.submit_job request).2.job_id
        = ((c.jobs.pending ++ [{ Job.from_request c.next_uuid request with
              tasks := [c.next_uuid + 1] }]) ++ c.jobs.running
            ++ c.jobs.finished).find? (fun j => j.id = c.next_uuid) := rfl
    rw [key, List.find?_append, List.find?_append, List.find?_append,
      hpend, hrun, hfin]
    simp [Job.from_request]
  · left
    simp [Job.progress, Job.from_request]

theorem submit_job_single_task_witness :
    (Coordinator.new CoordinatorConfig.default).IdBound
    ∧ ∃ job,
        ((Coordinator.new CoordinatorConfig.default).submit_job
            { job_type := "benchmark", payload := "p", metadata := [],
              timeout_seconds := none }).1.jobs.get
          ((Coordinator.new CoordinatorConfig.default).submit_job
            { job_type := "benchmark", payload := "p", metadata := [],
              timeout_seconds := none }).2.job_id = some job
        ∧ job.tasks.length = 1
        ∧ (job.progress = 0 ∨ job.progress = 1) :=
  ⟨by intro j hj; simp [Coordinator.new, JobQueue.new, JobQueue.allJobs] at hj,
   submit_job_single_task (Coordinator.new CoordinatorConfig.default)
     { job_type := "benchmark", payload := "p", metadata := [],
       timeout_seconds := none }
     (by intro j hj; simp [Coordinator.new, JobQueue.new, JobQueue.allJobs] at hj)⟩

theorem get_worker_increment (cs : ClusterState) (wid : String) :
    (cs.increment_worker_tasks wid).get_worker wid
      = (cs.get_worker wid).map
          (fun w => { w with current_tasks := w.current_tasks + 1 }) := by
  show (updateWorkers wid
      (fun w => { w with current_tasks := w.current_tasks + 1 })
      cs.workers).find? (fun w => w.id = wid)
    = (cs.workers.find? (fun w => w.id = wid)).map
        (fun w => { w with current_tasks := w.current_tasks + 1 })
  exact updateWorkers_find wid
    (fun w => { w with current_tasks := w.current_tasks + 1 })
    (fun w => rfl) cs.workers

theorem pullLoop_worker_count (wid : String) (n : Nat) :
    ∀ (c : Coordinator) (w : WorkerInfo), c.cluster.get_worker wid = some w →
    (pullLoop wid n c).1.length ≤ n
    ∧ ∃ w', (pullLoop wid n c).2.cluster.get_worker wid = some w'
        ∧ w'.current_tasks = w.current_tasks + (pullLoop wid n c).1.length
        ∧ w'.capacity = w.capacity := by
  induction n with
  | zero =>
      intro c w hw
      exact ⟨Nat.le_refl 0, w, hw, rfl, rfl⟩
  | succ n ih =>
      intro c w hw
      simp only [pullLoop]
      cases hnext : c.jobs.next with
      | none =>
          exact ⟨Nat.zero_le _, w, hw, rfl, rfl⟩
      | some pr =>
          obtain ⟨job, jq⟩ := pr
          dsimp only
          cases hh : job.tasks.head? with
          | some task_id =>
              dsimp only
              have hw' : (Coordinator.mk c.config
                  (c.cluster.increment_worker_tasks wid) jq
                  (alistInsert task_id wid c.task_assignments)
                  c.next_uuid).cluster.get_worker wid
                  = some { w with current_tasks := w.current_tasks + 1 } := by
                show (c.cluster.increment_worker_tasks wid).get_worker wid = _
                rw [get_worker_increment, hw]
                rfl
              obtain ⟨hlen, w', hfound, hcur, hcap⟩ := ih _ _ hw'
              refine ⟨Nat.succ_le_succ hlen, w', hfound, ?_, hcap⟩
              rw [hcur]
              simp only [List.length_cons]
              omega
          | none =>
              dsimp only
              obtain ⟨hlen, w', hfound, hcur, hcap⟩ :=
                ih (Coordinator.mk c.config c.cluster jq
                  c.task_assignments c.next_uuid) w hw
              exact ⟨Nat.le_succ_of_le hlen, w', hfound, hcur, hcap⟩

/-- C3: a pull_tasks call for a registered worker hands out at most
min(count, capacity - current_tasks) tasks, bumps the worker's current-task
count once per returned task, and leaves the post-pull count within the
worker's capacity. -/
theorem pull_tasks_respects_capacity (c : Coordinator)
    (request : PullTaskRequest) (w : WorkerInfo)
    (hw : c.cluster.get_worker request.worker_id = some w)
    (hcap : w.current_tasks ≤ w.capacity) :
    (c.pull_tasks request).2.tasks.length
        ≤ min request.count (w.capacity - w.current_tasks)
    ∧ ∃ w', (c.pull_tasks request).1.cluster.get_worker request.worker_id
          = some w'
        ∧ w'.current_tasks
            = w.current_tasks + (c.pull_tasks request).2.tasks.length
        ∧ w'.current_tasks ≤ w.capacity := by
  obtain ⟨hlen, w', hfound, hcur, hcapEq⟩ :=
    pullLoop_worker_count request.worker_id
      (min request.count (w.capacity - w.current_tasks)) c w hw
  have hgoal : c.pull_tasks request
      = ((pullLoop request.worker_id
            (min request.count (w.capacity - w.current_tasks)) c).2,
         { tasks := (pullLoop request.worker_id
              (min request.count (w.capacity - w.current_tasks)) c).1,
           message := "Assigned " ++ toString (pullLoop request.worker_id
              (min request.count (w.capacity - w.current_tasks)) c).1.length
             ++ " tasks" }) := by
    unfold Coordinator.pull_tasks
    rw [hw]
  rw [hgoal]
  refine ⟨hlen, w', hfound, hcur, ?_⟩
  have h1 : (pullLoop request.worker_id
      (min request.count (w.capacity - w.current_tasks)) c).1.length
      ≤ w.capacity - w.current_tasks := Nat.le_trans hlen (Nat.min_le_right _ _)
  omega

/-- Concrete coordinator with one registered worker of capacity 2, to witness
the capacity bound. -/
def cW3 : Coordinator :=
  ((Coordinator.new CoordinatorConfig.default).register_worker
    { worker_id := "w1", address := "a", capacity := 2, tags := [],
      metadata := [] } 0).1

/-- The worker record cW3 holds. -/
def wW3 : WorkerInfo :=
  { id := "w1", address := "a", status := WorkerStatus.Idle, capacity := 2,
    current_tasks := 0, completed_tasks := 0, failed_tasks := 0, tags := [],
    metadata := [], last_heartbeat := 0, registered_at := 0 }

theorem pull_tasks_respects_capacity_witness :
    cW3.cluster.get_worker "w1" = some wW3
    ∧ wW3.current_tasks ≤ wW3.capacity
    ∧ ((cW3.pull_tasks { worker_id := "w1", count := 5 }).2.tasks.length
        ≤ min 5 (wW3.capacity - wW3.current_tasks)
      ∧ ∃ w', (cW3.pull_tasks { worker_id := "w1", count := 5 }).1.cluster.get_worker
            "w1" = some w'
          ∧ w'.current_tasks = wW3.current_tasks
              + (cW3.pull_tasks { worker_id := "w1", count := 5 }).2.tasks.length
          ∧ w'.current_tasks ≤ wW3.capacity) :=
  ⟨by decide, by decide,
   pull_tasks_respects_capacity cW3 { worker_id := "w1", count := 5 } wW3
     (by decide) (by decide)⟩

/-! ## The single-worker completion and retry scenarios

Coordinator::complete_task (coordinator.rs lines 337-361) updates the cluster
counters and the ledger but never forwards the result to the job queue — its
own comment says the job queue would be updated, and the spec scenarios
expect the job to reach Completed and failures to be retried.  The two
theorems below run the spec's literal scenarios on the embedding and exhibit
the divergence. -/

/-- The coordinator state after the spec's single-worker happy path: register
w1 (capacity 2), submit one job (job id 0, task id 1), w1 pulls one task, w1
reports success on task 1. -/
def happyPathState : Coordinator :=
  let c0 := Coordinator.new CoordinatorConfig.default
  let c1 := (c0.register_worker
    { worker_id := "w1", address := "a", capacity := 2, tags := [],
      metadata := [] } 0).1
  let c2 := (c1.submit_job
    { job_type := "benchmark", payload := "p", metadata := [],
      timeout_seconds := none }).1
  let c3 := (c2.pull_tasks { worker_id := "w1", count := 1 }).1
  c3.complete_task 1
    { task_id := 1, success := true, result := some "ok", error := none }

/-- C1 (divergence witness): after the happy path the cluster completed-jobs
counter and the worker counters are as the claim states, but the job's status
is still Running, not Completed — complete_task never told the job queue. -/
theorem complete_task_leaves_job_running :
    (happyPathState.get_job_status { job_id := 0 }).map (fun r => r.status)
        = some "Running"
    ∧ ¬((happyPathState.get_job_status { job_id := 0 }).map (fun r => r.status)
        = some "Completed")
    ∧ happyPathState.get_cluster_stats.completed_jobs = 1
    ∧ (happyPathState.cluster.get_worker "w1").map
        (fun w => w.completed_tasks) = some 1
    ∧ (happyPathState.cluster.get_worker "w1").map
        (fun w => w.current_tasks) = some 0 := by
  refine ⟨?_, ?_, ?_, ?_, ?_⟩ <;> decide

/-- The coordinator state after the spec's retry scenario prefix: max_retries
is 2, one job submitted (job id 0, task id 1), w1 pulls the task and reports
failure. -/
def retryScenarioState : Coordinator :=
  let c0 := Coordinator.new
    { CoordinatorConfig.default with max_retries := 2 }
  let c1 := (c0.register_worker
    { worker_id := "w1", address := "a", capacity := 2, tags := [],
      metadata := [] } 0).1
  let c2 := (c1.submit_job
    { job_type := "benchmark", payload := "p", metadata := [],
      timeout_seconds := none }).1
  let c3 := (c2.pull_tasks { worker_id := "w1", count := 1 }).1
  c3.complete_task 1
    { task_id := 1, success := false, result := none, error := some "boom" }

/-- C2 (divergence witness): the failed task had retries remaining
(retry_count 0 of max_retries 2), yet no fresh task is enqueued — the pending
queue stays empty — the job stays Running, and a later success report for the
same task id is a complete no-op because the assignment was already dropped,
so the job can never reach Completed. -/
theorem complete_task_failure_mints_no_retry :
    retryScenarioState.config.max_retries = 2
    ∧ ((retryScenarioState.jobs.get 0).map (fun j => j.retry_count) = some 0)
    ∧ retryScenarioState.jobs.pending = []
    ∧ (retryScenarioState.cluster.get_worker "w1").map
        (fun w => w.failed_tasks) = some 1
    ∧ (retryScenarioState.get_job_status { job_id := 0 }).map
        (fun r => r.status) = some "Running"
    ∧ retryScenarioState.complete_task 1
        { task_id := 1, success := true, result := some "ok", error := none }
      = retryScenarioState := by
  refine ⟨?_, ?_, ?_, ?_, ?_, ?_⟩ <;> decide

/-! ## Cancellation: well-formedness and the cancel contract -/

/-- Queue well-formedness: every tracked job's status matches the list
holding it.  Every state reachable from JobQueue::new satisfies this. -/
def JobQueue.WF (q : JobQueue) : Prop :=
  (∀ j ∈ q.pending, j.status = JobStatus.Pending)
  ∧ (∀ j ∈ q.running, j.status = JobStatus.Running)
  ∧ (∀ j ∈ q.finished, j.status.isTerminal = true)

theorem JobQueue.get_eq_or (q : JobQueue) (id' : Nat) :
    q.get id' = ((q.pending.find? (fun j => j.id = id')).or
      (q.running.find? (fun j => j.id = id'))).or
      (q.finished.find? (fun j => j.id = id')) := by
  unfold JobQueue.get JobQueue.allJobs
  rw [List.find?_append, List.find?_append]

theorem extractById_mem {id' : Nat} {l : List Job} {j : Job} {rest : List Job}
    (h : extractById id' l = some (j, rest)) :
    j ∈ l ∧ j.id = id' ∧ ∀ x ∈ rest, x ∈ l := by
  induction l generalizing j rest with
  | nil => simp [extractById] at h
  | cons a tail ih =>
      by_cases ha : a.id = id'
      · rw [extractById, if_pos ha] at h
        injection h with h'
        injection h' with hja htail
        refine ⟨?_, ?_, ?_⟩
        · rw [← hja]; exact List.mem_cons_self a tail
        · rw [← hja]; exact ha
        · intro x hx
          rw [← htail] at hx
          exact List.mem_cons_of_mem a hx
      · rw [extractById, if_neg ha] at h
        cases he : extractById id' tail with
        | none => rw [he] at h; exact absurd h (by simp)
        | some pr =>
            obtain ⟨x0, r0⟩ := pr
            rw [he] at h
            injection h with h'
            injection h' with hxj hrest
            obtain ⟨hm, hid, hsub⟩ := ih he
            refine ⟨?_, ?_, ?_⟩
            · rw [← hxj]; exact List.mem_cons_of_mem a hm
            · rw [← hxj]; exact hid
            · intro y hy
              rw [← hrest] at hy
              rcases List.mem_cons.mp hy with h1 | hy'
              · rw [h1]; exact List.mem_cons_self a tail
              · exact List.mem_cons_of_mem a (hsub y hy')

theorem extractById_eq_none {id' : Nat} {l : List Job} :
    extractById id' l = none ↔ ∀ j ∈ l, ¬(j.id = id') := by
  induction l with
  | nil => simp [extractById]
  | cons a tail ih =>
      by_cases ha : a.id = id'
      · rw [extractById, if_pos ha]
        simp only [List.mem_cons]
        constructor
        · intro h; exact absurd h (by simp)
        · intro h; exact absurd ha (h a (Or.inl rfl))
      · rw [extractById, if_neg ha]
        cases he : extractById id' tail with
        | none =>
            simp only [List.mem_cons]
            constructor
            · intro _ j hj
              rcases hj with rfl | hj'
              · exact ha
              · exact (ih.mp he) j hj'
            · intro _; trivial
        | some pr =>
            simp only [List.mem_cons]
            constructor
            · intro h; exact absurd h (by simp)
            · intro h
              have : extractById id' tail = none :=
                ih.mpr (fun j hj => h j (Or.inr hj))
              rw [this] at he
              exact absurd he (by simp)

theorem find?_id_eq_none_iff {id' : Nat} {l : List Job} :
    l.find? (fun j => j.id = id') = none ↔ ∀ j ∈ l, ¬(j.id = id') := by
  rw [List.find?_eq_none]
  constructor
  · intro h j hj; simpa using h j hj
  · intro h j hj; simpa using h j hj

/-- The cancel result bit of the facade response equals the queue's cancel
bit. -/
theorem cancel_job_success_eq (c : Coordinator) (request : CancelJobRequest) :
    (c.cancel_job request).2.success
      = (c.jobs.cancel request.job_id request.reason).2 := by
  unfold Coordinator.cancel_job
  by_cases h : (c.jobs.cancel request.job_id request.reason).2 = true
  · rw [if_pos h, h]
  · rw [if_neg h]
    simp only [Bool.not_eq_true] at h
    rw [h]

theorem queue_cancel_true_iff (q : JobQueue) (id' : Nat) (reason : String)
    (hWF : q.WF) :
    (q.cancel id' reason).2 = true
      ↔ ∃ j, q.get id' = some j ∧ j.status.isTerminal = false := by
  obtain ⟨hWFp, hWFr, hWFf⟩ := hWF
  unfold JobQueue.cancel
  cases hp : extractById id' q.pending with
  | some pr =>
      obtain ⟨j, rest⟩ := pr
      obtain ⟨hjmem, hjid, _⟩ := extractById_mem hp
      simp only [true_iff]
      have hsome : (q.pending.find? (fun x => x.id = id')).isSome := by
        rw [List.find?_isSome]
        exact ⟨j, hjmem, by simpa using hjid⟩
      obtain ⟨j0, hj0⟩ := Option.isSome_iff_exists.mp hsome
      have hj0mem := List.mem_of_find?_eq_some hj0
      refine ⟨j0, ?_, ?_⟩
      · rw [JobQueue.get_eq_or, hj0]
        rfl
      · rw [hWFp j0 hj0mem]
        rfl
  | none =>
      have hfp : q.pending.find? (fun x => x.id = id') = none :=
        find?_id_eq_none_iff.mpr (extractById_eq_none.mp hp)
      cases hr : extractById id' q.running with
      | some pr =>
          obtain ⟨j, rest⟩ := pr
          obtain ⟨hjmem, hjid, _⟩ := extractById_mem hr
          simp only [true_iff]
          have hsome : (q.running.find? (fun x => x.id = id')).isSome := by
            rw [List.find?_isSome]
            exact ⟨j, hjmem, by simpa using hjid⟩
          obtain ⟨j0, hj0⟩ := Option.isSome_iff_exists.mp hsome
          have hj0mem := List.mem_of_find?_eq_some hj0
          refine ⟨j0, ?_, ?_⟩
          · rw [JobQueue.get_eq_or, hfp, hj0]
            rfl
          · rw [hWFr j0 hj0mem]
            rfl
      | none =>
          have hfr : q.running.find? (fun x => x.id = id') = none :=
            find?_id_eq_none_iff.mpr (extractById_eq_none.mp hr)
          constructor
          · intro h
            exact absurd h (by simp)
          · rintro ⟨j, hget, hterm⟩
            exfalso
            rw [JobQueue.get_eq_or, hfp, hfr] at hget
            simp only [Option.none_or] at hget
            have hjmem := List.mem_of_find?_eq_some hget
            rw [hWFf j hjmem] at hterm
            exact absurd hterm (by simp)

theorem cancel_terminal_noop (c : Coordinator) (id' : Nat) (reason : String)
    (j : Job) (hWF : c.jobs.WF) (hj : c.jobs.get id' = some j)
    (hterm : j.status.isTerminal = true) :
    c.cancel_job { job_id := id', reason := reason }
      = (c, { success := false,
              message := "Job not found or already completed" }) := by
  obtain ⟨hWFp, hWFr, hWFf⟩ := hWF
  rw [JobQueue.get_eq_or] at hj
  cases hfp : c.jobs.pending.find? (fun x => x.id = id') with
  | some p0 =>
      exfalso
      rw [hfp] at hj
      simp only [Option.or_some] at hj
      have hp0 := List.mem_of_find?_eq_some hfp
      have := hWFp p0 hp0
      injection hj with hj'
      rw [← hj', this] at hterm
      exact absurd hterm (by simp [JobStatus.isTerminal])
  | none =>
      rw [hfp] at hj
      simp only [Option.none_or] at hj
      cases hfr : c.jobs.running.find? (fun x => x.id = id') with
      | some r0 =>
          exfalso
          rw [hfr] at hj
          simp only [Option.or_some] at hj
          have hr0 := List.mem_of_find?_eq_some hfr
          have := hWFr r0 hr0
          injection hj with hj'
          rw [← hj', this] at hterm
          exact absurd hterm (by simp [JobStatus.isTerminal])
      | none =>
          have hep : extractById id' c.jobs.pending = none :=
            extractById_eq_none.mpr (find?_id_eq_none_iff.mp hfp)
          have her : extractById id' c.jobs.running = none :=
            extractById_eq_none.mpr (find?_id_eq_none_iff.mp hfr)
          unfold Coordinator.cancel_job JobQueue.cancel
          rw [hep, her]
          rfl

/-! ## Cancellation is permanent: the inductive invariant -/

/-- The invariant carried across facade operations for a cancelled job id:
the queue is well-formed, all tracked ids are below the uuid counter, the
cancelled id is below the counter (so it can never be minted again), and
every tracked job bearing the id is Cancelled. -/
def CancelInv (id : Nat) (c : Coordinator) : Prop :=
  c.jobs.WF ∧ c.IdBound ∧ id < c.next_uuid
  ∧ ∀ j ∈ c.jobs.allJobs, j.id = id → j.status = JobStatus.Cancelled

theorem cancelInv_of_fields {id : Nat} {c c' : Coordinator}
    (hj : c'.jobs = c.jobs) (hn : c'.next_uuid = c.next_uuid)
    (h : CancelInv id c) : CancelInv id c' := by
  obtain ⟨h1, h2, h3, h4⟩ := h
  refine ⟨?_, ?_, ?_, ?_⟩
  · rw [hj]; exact h1
  · intro j hjm
    rw [hn]
    exact h2 j (hj ▸ hjm)
  · rw [hn]; exact h3
  · intro j hjm
    exact h4 j (hj ▸ hjm)

theorem mem_pushFinished {q : JobQueue} {j x : Job}
    (hx : x ∈ (q.pushFinished j).finished) : x ∈ q.finished ∨ x = j := by
  unfold JobQueue.pushFinished at hx
  have hx' := List.drop_subset _ _ hx
  rcases List.mem_append.mp hx' with h | h
  · exact Or.inl h
  · simp only [List.mem_singleton] at h
    exact Or.inr h

theorem mem_allJobs_submit {q : JobQueue} {j x : Job} :
    x ∈ (q.submit j).allJobs ↔ x ∈ q.allJobs ∨ x = j := by
  simp only [JobQueue.submit, JobQueue.allJobs, List.mem_append,
    List.mem_singleton]
  tauto

theorem next_spec {q : JobQueue} {j' : Job} {jq : JobQueue}
    (h : q.next = some (j', jq)) :
    ∃ j rest, q.pending = j :: rest
      ∧ j' = { j with status := JobStatus.Running, started_at := some 0 }
      ∧ jq.pending = rest
      ∧ jq.running = q.running ++ [j']
      ∧ jq.finished = q.finished
      ∧ jq.max_completed_jobs = q.max_completed_jobs := by
  unfold JobQueue.next at h
  cases hp : q.pending with
  | nil => rw [hp] at h; exact absurd h (by simp)
  | cons j rest =>
      rw [hp] at h
      dsimp only at h
      injection h with h'
      injection h' with hj hq
      refine ⟨j, rest, rfl, hj.symm, ?_, ?_, ?_, ?_⟩
      · rw [← hq]
      · rw [← hq, ← hj]
      · rw [← hq]
      · rw [← hq]

theorem WF_queue_cancel {q : JobQueue} (id' : Nat) (reason : String)
    (h : q.WF) : (q.cancel id' reason).1.WF := by
  obtain ⟨hp, hr, hf⟩ := h
  unfold JobQueue.cancel
  cases hep : extractById id' q.pending with
  | some pr =>
      obtain ⟨j, rest⟩ := pr
      obtain ⟨hjmem, hjid, hsub⟩ := extractById_mem hep
      dsimp only
      refine ⟨?_, ?_, ?_⟩
      · intro x hx
        exact hp x (hsub x hx)
      · intro x hx
        exact hr x hx
      · intro x hx
        rcases mem_pushFinished hx with h1 | h1
        · exact hf x h1
        · rw [h1]; rfl
  | none =>
      cases her : extractById id' q.running with
      | some pr =>
          obtain ⟨j, rest⟩ := pr
          obtain ⟨hjmem, hjid, hsub⟩ := extractById_mem her
          dsimp only
          refine ⟨?_, ?_, ?_⟩
          · intro x hx
            exact hp x hx
          · intro x hx
            exact hr x (hsub x hx)
          · intro x hx
            rcases mem_pushFinished hx with h1 | h1
            · exact hf x h1
            · rw [h1]; rfl
      | none => exact ⟨hp, hr, hf⟩

theorem mem_allJobs_cancel {q : JobQueue} {id' : Nat} {reason : String} {x : Job}
    (hx : x ∈ (q.cancel id' reason).1.allJobs) :
    x ∈ q.allJobs
    ∨ ∃ j ∈ q.allJobs,
        x = { j with status := JobStatus.Cancelled, error := some reason } := by
  unfold JobQueue.cancel at hx
  cases hep : extractById id' q.pending with
  | some pr =>
      obtain ⟨j, rest⟩ := pr
      obtain ⟨hjmem, hjid, hsub⟩ := extractById_mem hep
      rw [hep] at hx
      dsimp only [JobQueue.allJobs, JobQueue.pushFinished] at hx
      rcases List.mem_append.mp hx with h1 | h1
      · rcases List.mem_append.mp h1 with h2 | h2
        · exact Or.inl (List.mem_append_left _
            (List.mem_append_left _ (hsub x h2)))
        · exact Or.inl (List.mem_append_left _ (List.mem_append_right _ h2))
      · rcases List.mem_append.mp (List.drop_subset _ _ h1) with h2 | h2
        · exact Or.inl (List.mem_append_right _ h2)
        · simp only [List.mem_singleton] at h2
          exact Or.inr ⟨j, List.mem_append_left _ (List.mem_append_left _ hjmem), h2⟩
  | none =>
      cases her : extractById id' q.running with
      | some pr =>
          obtain ⟨j, rest⟩ := pr
          obtain ⟨hjmem, hjid, hsub⟩ := extractById_mem her
          rw [hep, her] at hx
          dsimp only [JobQueue.allJobs, JobQueue.pushFinished] at hx
          rcases List.mem_append.mp hx with h1 | h1
          · rcases List.mem_append.mp h1 with h2 | h2
            · exact Or.inl (List.mem_append_left _ (List.mem_append_left _ h2))
            · exact Or.inl (List.mem_append_left _
                (List.mem_append_right _ (hsub x h2)))
          · rcases List.mem_append.mp (List.drop_subset _ _ h1) with h2 | h2
            · exact Or.inl (List.mem_append_right _ h2)
            · simp only [List.mem_singleton] at h2
              exact Or.inr ⟨j, List.mem_append_left _
                (List.mem_append_right _ hjmem), h2⟩
      | none =>
          rw [hep, her] at hx
          exact Or.inl hx

theorem next_allJobs_sub {q : JobQueue} {j' : Job} {jq : JobQueue}
    (h : q.next = some (j', jq)) :
    ∀ x ∈ jq.allJobs, x ∈ q.allJobs ∨ x = j' := by
  obtain ⟨j, rest, hpend, hj, hqp, hqr, hqf, hqm⟩ := next_spec h
  intro x hx
  unfold JobQueue.allJobs at hx
  rw [hqp, hqr, hqf] at hx
  rcases List.mem_append.mp hx with h1 | h1
  · rcases List.mem_append.mp h1 with h2 | h2
    · refine Or.inl (List.mem_append_left _ (List.mem_append_left _ ?_))
      rw [hpend]
      exact List.mem_cons_of_mem _ h2
    · rcases List.mem_append.mp h2 with h3 | h3
      · exact Or.inl (List.mem_append_left _ (List.mem_append_right _ h3))
      · simp only [List.mem_singleton] at h3
        exact Or.inr h3
  · exact Or.inl (List.mem_append_right _ h1)

theorem cancelInv_submit (id : Nat) (c : Coordinator) (request : JobRequest)
    (h : CancelInv id c) : CancelInv id (c.submit_job request).1 := by
  obtain ⟨⟨hp, hr, hf⟩, hB, hlt, hC⟩ := h
  have hjobs : (c.submit_job request).1.jobs
      = c.jobs.submit { Job.from_request c.next_uuid request with
          tasks := [c.next_uuid + 1] } := rfl
  refine ⟨⟨?_, ?_, ?_⟩, ?_, ?_, ?_⟩
  · intro j hj
    rw [hjobs] at hj
    rcases List.mem_append.mp hj with h1 | h1
    · exact hp j h1
    · simp only [List.mem_singleton] at h1
      rw [h1]; rfl
  · intro j hj
    rw [hjobs] at hj
    exact hr j hj
  · intro j hj
    rw [hjobs] at hj
    exact hf j hj
  · intro j hj
    rw [hjobs] at hj
    show j.id < c.next_uuid + 2
    rcases mem_allJobs_submit.mp hj with h1 | h1
    · have := hB j h1
      omega
    · rw [h1]
      show c.next_uuid < c.next_uuid + 2
      omega
  · show id < c.next_uuid + 2
    omega
  · intro j hj hid
    rw [hjobs] at hj
    rcases mem_allJobs_submit.mp hj with h1 | h1
    · exact hC j h1 hid
    · exfalso
      rw [h1] at hid
      have hid' : c.next_uuid = id := hid
      omega

theorem cancelInv_cancel (id : Nat) (c : Coordinator)
    (request : CancelJobRequest) (h : CancelInv id c) :
    CancelInv id (c.cancel_job request).1 := by
  obtain ⟨hWF, hB, hlt, hC⟩ := h
  simp only [Coordinator.cancel_job]
  by_cases hb : (c.jobs.cancel request.job_id request.reason).2 = true
  · rw [if_pos hb]
    refine ⟨WF_queue_cancel _ _ hWF, ?_, hlt, ?_⟩
    · intro j hj
      show j.id < c.next_uuid
      rcases mem_allJobs_cancel hj with h1 | ⟨j0, hj0, hEq⟩
      · exact hB j h1
      · have hji : j.id = j0.id := by rw [hEq]
        rw [hji]
        exact hB j0 hj0
    · intro j hj hid
      rcases mem_allJobs_cancel hj with h1 | ⟨j0, hj0, hEq⟩
      · exact hC j h1 hid
      · rw [hEq]
  · rw [if_neg hb]
    exact ⟨hWF, hB, hlt, hC⟩

theorem cancelInv_jq (id : Nat) (c : Coordinator) {j' : Job} {jq : JobQueue}
    (hnext : c.jobs.next = some (j', jq)) (h : CancelInv id c) :
    CancelInv id (Coordinator.mk c.config c.cluster jq c.task_assignments
      c.next_uuid) := by
  obtain ⟨⟨hp, hr, hf⟩, hB, hlt, hC⟩ := h
  obtain ⟨j, rest, hpend, hj, hqp, hqr, hqf, hqm⟩ := next_spec hnext
  have hjmem : j ∈ c.jobs.pending := by
    rw [hpend]; exact List.mem_cons_self _ _
  have hjall : j ∈ c.jobs.allJobs :=
    List.mem_append_left _ (List.mem_append_left _ hjmem)
  have hjid : ¬(j.id = id) := by
    intro he
    have hcanc := hC j hjall he
    rw [hp j hjmem] at hcanc
    exact absurd hcanc (by decide)
  refine ⟨⟨?_, ?_, ?_⟩, ?_, hlt, ?_⟩
  · intro x hx
    show x.status = JobStatus.Pending
    have hx' : x ∈ jq.pending := hx
    rw [hqp] at hx'
    refine hp x ?_
    rw [hpend]
    exact List.mem_cons_of_mem _ hx'
  · intro x hx
    show x.status = JobStatus.Running
    have hx' : x ∈ jq.running := hx
    rw [hqr] at hx'
    rcases List.mem_append.mp hx' with h1 | h1
    · exact hr x h1
    · simp only [List.mem_singleton] at h1
      rw [h1, hj]
  · intro x hx
    have hx' : x ∈ jq.finished := hx
    rw [hqf] at hx'
    exact hf x hx'
  · intro x hx
    show x.id < c.next_uuid
    rcases next_allJobs_sub hnext x hx with h1 | h1
    · exact hB x h1
    · rw [h1, hj]
      exact hB j hjall
  · intro x hx hid
    rcases next_allJobs_sub hnext x hx with h1 | h1
    · exact hC x h1 hid
    · exfalso
      rw [h1, hj] at hid
      exact hjid hid

theorem cancelInv_pullLoop (id : Nat) (wid : String) :
    ∀ (n : Nat) (c : Coordinator), CancelInv id c →
      CancelInv id (pullLoop wid n c).2 := by
  intro n
  induction n with
  | zero => intro c h; exact h
  | succ n ih =>
      intro c h
      simp only [pullLoop]
      cases hnext : c.jobs.next with
      | none => exact h
      | some pr =>
          obtain ⟨job, jq⟩ := pr
          dsimp only
          have hmid := cancelInv_jq id c hnext h
          cases hh : job.tasks.head? with
          | some task_id =>
              dsimp only
              refine ih _ (cancelInv_of_fields rfl rfl hmid)
          | none =>
              dsimp only
              exact ih _ (cancelInv_of_fields rfl rfl hmid)

theorem cancelInv_applyOp (id : Nat) (c : Coordinator) (op : Op)
    (h : CancelInv id c) : CancelInv id (applyOp c op) := by
  cases op with
  | register request now => exact cancelInv_of_fields rfl rfl h
  | deregister request =>
      show CancelInv id (c.deregister_worker request).1
      unfold Coordinator.deregister_worker
      rcases hd : c.cluster.deregister_worker request.worker_id with ⟨cl, w⟩
      cases w with
      | none => exact h
      | some w0 => exact cancelInv_of_fields rfl rfl h
  | heartbeat request now => exact cancelInv_of_fields rfl rfl h
  | submit request => exact cancelInv_submit id c request h
  | cancel request => exact cancelInv_cancel id c request h
  | pull request =>
      show CancelInv id (c.pull_tasks request).1
      unfold Coordinator.pull_tasks
      cases hw : c.cluster.get_worker request.worker_id with
      | none => exact h
      | some w =>
          dsimp only
          exact cancelInv_pullLoop id request.worker_id _ c h
  | complete task_id result =>
      show CancelInv id (c.complete_task task_id result)
      unfold Coordinator.complete_task
      cases ha : alistFind task_id c.task_assignments with
      | none => exact h
      | some wid => exact cancelInv_of_fields rfl rfl h

theorem cancelInv_applyOps (id : Nat) :
    ∀ (ops : List Op) (c : Coordinator), CancelInv id c →
      CancelInv id (applyOps c ops) := by
  intro ops
  induction ops with
  | nil => intro c h; exact h
  | cons op rest ih =>
      intro c h
      exact ih _ (cancelInv_applyOp id c op h)

theorem status_read_of_cancelInv (id : Nat) (c : Coordinator)
    (h : CancelInv id c) (r : JobStatusResponse)
    (hr : c.get_job_status { job_id := id } = some r) : r.status = "Cancelled" := by
  obtain ⟨hWF, hB, hlt, hC⟩ := h
  unfold Coordinator.get_job_status at hr
  cases hg : c.jobs.get id with
  | none => rw [hg] at hr; exact absurd hr (by simp)
  | some j =>
      rw [hg] at hr
      have hjid : j.id = id := by
        have := List.find?_some hg
        simpa using this
      have hjmem : j ∈ c.jobs.allJobs := List.mem_of_find?_eq_some hg
      have hcanc := hC j hjmem hjid
      injection hr with hr2
      rw [← hr2]
      show j.status.render = "Cancelled"
      rw [hcanc]
      rfl

/-- C6: for a well-formed coordinator, cancel_job succeeds exactly when the
job exists and is non-terminal; a cancel aimed at a job already terminal
returns false and changes no state at all; and once a job id is cancelled,
every status read after any further sequence of facade operations that still
finds the job reports Cancelled. -/
theorem cancel_job_contract (c : Coordinator) (id : Nat) (reason : String)
    (hWF : c.jobs.WF) (hB : c.IdBound) :
    ((c.cancel_job { job_id := id, reason := reason }).2.success = true
      ↔ ∃ j, c.jobs.get id = some j ∧ j.status.isTerminal = false)
    ∧ (∀ j, c.jobs.get id = some j → j.status.isTerminal = true →
        c.cancel_job { job_id := id, reason := reason }
          = (c, { success := false,
                  message := "Job not found or already completed" }))
    ∧ ((∀ j ∈ c.jobs.allJobs, j.id = id → j.status = JobStatus.Cancelled) →
       (∃ j, j ∈ c.jobs.allJobs ∧ j.id = id) →
       ∀ (ops : List Op) (r : JobStatusResponse),
         (applyOps c ops).get_job_status { job_id := id } = some r →
         r.status = "Cancelled") := by
  refine ⟨?_, ?_, ?_⟩
  · rw [cancel_job_success_eq]
    exact queue_cancel_true_iff c.jobs id reason hWF
  · intro j hj hterm
    exact cancel_terminal_noop c id reason j hWF hj hterm
  · intro hAll hEx ops r hr
    obtain ⟨j0, hj0mem, hj0id⟩ := hEx
    have hlt : id < c.next_uuid := hj0id ▸ hB j0 hj0mem
    exact status_read_of_cancelInv id _
      (cancelInv_applyOps id ops c ⟨hWF, hB, hlt, hAll⟩) r hr

/-- Concrete coordinator holding one cancelled job (id 0), to witness the
cancel contract. -/
def cW6 : Coordinator :=
  let c0 := Coordinator.new CoordinatorConfig.default
  let c1 := (c0.submit_job
    { job_type := "t", payload := "p", metadata := [],
      timeout_seconds := none }).1
  (c1.cancel_job { job_id := 0, reason := "user request" }).1

theorem cancel_job_contract_witness :
    cW6.jobs.WF
    ∧ cW6.IdBound
    ∧ (((cW6.cancel_job { job_id := 0, reason := "again" }).2.success = true
          ↔ ∃ j, cW6.jobs.get 0 = some j ∧ j.status.isTerminal = false)
        ∧ (∀ j, cW6.jobs.get 0 = some j → j.status.isTerminal = true →
            cW6.cancel_job { job_id := 0, reason := "again" }
              = (cW6, { success := false,
                        message := "Job not found or already completed" }))
        ∧ ((∀ j ∈ cW6.jobs.allJobs, j.id = 0 → j.status = JobStatus.Cancelled) →
           (∃ j, j ∈ cW6.jobs.allJobs ∧ j.id = 0) →
           ∀ (ops : List Op) (r : JobStatusResponse),
             (applyOps cW6 ops).get_job_status { job_id := 0 } = some r →
             r.status = "Cancelled")) :=
  ⟨by unfold JobQueue.WF; decide, by unfold Coordinator.IdBound; decide,
   cancel_job_contract cW6 0 "again" (by unfold JobQueue.WF; decide)
     (by unfold Coordinator.IdBound; decide)⟩
